import Mathlib

/-!
# Verification of the Gary ISBN cache-and-proxy core

Shallow embedding of the Gary proxy program (gary.py): ISBN
normalization and validation, the remap resolver, the cache store, the
single-flight ISBNdb fetch protocol with bounded retries and delays,
the query/info/pic operations and the sync driver.

Strings from the Python source are modelled as lists of Unicode code
points (`List Nat`, `ord`/`chr` being the identity).  Python floats used
for delay parameters are modelled as rationals (all the source does with
them is compare, clamp and add, which is exact).  Network traffic and
the wall clock are modelled by oracles: a function from the attempt
number to the optional fetch result, and an accumulated total of the
seconds passed to `time.sleep`.
-/

namespace Gary

/-- The exception classes of gary.py that the embedded fragment can
raise (subclasses of GaryError in the source). -/
inductive GaryErr where
  | LogicError
  | DatabaseIntegrityError
  | InvalidISBNError
  | NoDatabaseFileError
  | OpenLockfileError
  | BadSyncListError
  | SyncError
  deriving DecidableEq, Repr

/-- ASCII decimal digit test on a code point (the source's
`(c >= ord('0')) and (c <= ord('9'))`). -/
def isDigitN (c : Nat) : Bool := 48 ≤ c && c ≤ 57

/-- One character step of `norm_isbn_str`: lowercase letters become
uppercase, uppercase letters and digits pass through, other printable
ASCII and ASCII whitespace are dropped, and all remaining (control or
extended) code points pass through. -/
def normChar (c : Nat) : Option Nat :=
  if 97 ≤ c ∧ c ≤ 122 then some (c - 32)
  else if 65 ≤ c ∧ c ≤ 90 then some c
  else if 48 ≤ c ∧ c ≤ 57 then some c
  else if 33 ≤ c ∧ c ≤ 126 then none
  else if c = 9 ∨ c = 13 ∨ c = 10 ∨ c = 32 then none
  else some c

/-- Function `norm_isbn_str` from gary.py: keep and uppercase the alphanumeric
characters, drop ASCII symbols and whitespace. -/
def norm_isbn_str (s : List Nat) : List Nat := s.filterMap normChar

/-- The ISBN-10 weighted sum of the source: digit at zero-based index
`i` carries weight `10 - i`. -/
def wsum10 : List Nat → Nat → Nat
  | [], _ => 0
  | c :: r, i => (10 - i) * (c - 48) + wsum10 r (i + 1)

/-- The ISBN-13 weighted sum of the source: digit at zero-based index
`i` carries weight 3 when `i` is odd and 1 when `i` is even. -/
def wsum13 : List Nat → Nat → Nat
  | [], _ => 0
  | c :: r, i => (if i % 2 = 1 then 3 else 1) * (c - 48) + wsum13 r (i + 1)

/-- Function `compute_isbn_check` from gary.py: given the first 9 digits of an
ISBN-10 or the first 12 digits of an ISBN-13, return the check digit as
a code point (`'X'` = 88 possible only for ISBN-10), or `none` where
the source returns `False`.  The final `none` branches correspond to
the source's unreachable `raise LogicError()` arms. -/
def compute_isbn_check (s : List Nat) : Option Nat :=
  if s.all isDigitN = false then none
  else if s.length = 9 then
    let wsum := wsum10 s 0
    let r := wsum % 11
    let checkv := if r > 0 then 11 - r else 0
    if checkv < 10 then some (48 + checkv)
    else if checkv = 10 then some 88
    else none
  else if s.length = 12 then
    let wsum := wsum13 s 0
    let r := wsum % 10
    let checkv := if r > 0 then 10 - r else 0
    if checkv < 10 then some (48 + checkv)
    else none
  else none

/-- Function `norm_isbn` from gary.py: normalize the text, then convert a valid
ISBN-10 to ISBN-13 or pass a valid ISBN-13 through; `none` stands for
the source's `False` return.  With a normalized string of length 10
(resp. 13) the source's `s[9]` (resp. `s[12]`) is exactly the single
element of `s.drop 9` (resp. `s.drop 12`). -/
def norm_isbn (s0 : List Nat) : Option (List Nat) :=
  let s := norm_isbn_str s0
  if s.length = 10 then
    match compute_isbn_check (s.take 9), s.drop 9 with
    | some cds, [cd] =>
      if cds = cd then
        match compute_isbn_check ([57, 55, 56] ++ s.take 9) with
        | some cd2 => some (([57, 55, 56] ++ s.take 9) ++ [cd2])
        | none => none
      else none
    | _, _ => none
  else if s.length = 13 then
    match compute_isbn_check (s.take 12), s.drop 12 with
    | some cds, [cd] => if cds = cd then some s else none
    | _, _ => none
  else none

/-- Function `is_isbn13` from gary.py: exactly 13 decimal digits whose
{1,3}-alternating weighted sum is divisible by 10. -/
def is_isbn13 (s : List Nat) : Bool :=
  s.length == 13 && s.all isDigitN && wsum13 s 0 % 10 == 0

/-- Code points of a Lean string literal, for concrete test inputs. -/
def strCodes (s : String) : List Nat := s.data.map Char.toNat

/-- One row of the `books` table: canonical ISBN-13, Unix timestamp of
the fetch, the raw JSON text, and the optional cover image bytes. -/
structure BookRec where
  isbn13 : List Nat
  fetched : Int
  json : String
  cover : Option (List Nat)
  deriving DecidableEq, Repr

/-- The persistent state of a Gary database that the embedded fragment
touches: the `books` table, the `remap` table, and the two rows of the
`keys` table that `isbndb_param` reads. -/
structure GaryDB where
  books : List BookRec
  remap : List (List Nat × List Nat)
  key_isbndb : Option String
  key_lock : Option String
  deriving DecidableEq, Repr

/-- The filesystem facts consulted by the source: `os.path.isfile`,
`os.path.isabs`, `os.path.islink`, and whether `os.open` on the
lockfile succeeds. -/
structure FileSys where
  isfile : String → Bool
  isabs : String → Bool
  islink : String → Bool
  openok : String → Bool

/-- Statement `SELECT dest13 FROM remap WHERE src13=?` followed by `fetchone`:
the first matching row, if any. -/
def remapLookup (db : GaryDB) (k : List Nat) : Option (List Nat) :=
  (db.remap.find? (fun p => p.1 == k)).map (fun p => p.2)

/-- Function `apply_remap` from gary.py: one lookup keyed by the given ISBN-13;
if a row is found its `dest13` replaces the ISBN after re-validation
(`DatabaseIntegrityError` on failure), otherwise the input is returned
unchanged.  An input failing `is_isbn13` raises `LogicError`. -/
def apply_remap (db : GaryDB) (isbn13 : List Nat) : Except GaryErr (List Nat) :=
  if is_isbn13 isbn13 = false then .error .LogicError
  else
    match remapLookup db isbn13 with
    | none => .ok isbn13
    | some d => if is_isbn13 d then .ok d else .error .DatabaseIntegrityError

/-- Function `isbn_cached` from gary.py: `SELECT id FROM books WHERE isbn13=?`
finds a row.  (The deferred/immediate transaction mode switch has no
effect on the value computed and is not modelled.) -/
def isbn_cached (db : GaryDB) (isbn13 : List Nat) : Bool :=
  db.books.any (fun b => b.isbn13 == isbn13)

/-- Function `isbndb_param` from gary.py: returns the API key and lockfile path
when both `keys` rows are present and the path is absolute, an existing
regular file, and not a symlink; otherwise `None`. -/
def isbndb_param (db : GaryDB) (fs : FileSys) : Option (String × String) :=
  match db.key_isbndb with
  | none => none
  | some k =>
    match db.key_lock with
    | none => none
    | some p =>
      if fs.isabs p && fs.isfile p && !fs.islink p then some (k, p) else none

/-- A successful `json_query` response: the raw JSON text that is
stored in the database, and the optional `image` URL found under its
`book` object. -/
structure JMeta where
  raw : String
  image : Option String
  deriving DecidableEq, Repr

/-- The retry loop shared by the metadata and image fetches in
`isbndb_query`: starting at attempt index `i` with `rem` attempts
remaining, sleep `delay` before every attempt with `0 < i`, stop at the
first attempt the oracle answers.  Returns the result, the total
seconds slept, and the number of attempts made. -/
def retryGo {α : Type} (oracle : Nat → Option α) (delay : ℚ) :
    Nat → Nat → Option α × ℚ × Nat
  | _, 0 => (none, 0, 0)
  | i, rem + 1 =>
    let d : ℚ := if 0 < i then delay else 0
    match oracle i with
    | some a => (some a, d, 1)
    | none =>
      let (r, s, k) := retryGo oracle delay (i + 1) rem
      (r, d + s, k + 1)

/-- The source's `for i in range(0, n)` retry loop, from attempt 0. -/
def retryLoop {α : Type} (oracle : Nat → Option α) (delay : ℚ) (n : Nat) :
    Option α × ℚ × Nat :=
  retryGo oracle delay 0 n

/-- Statement `INSERT INTO books(isbn13, fetched, json, cover) VALUES (?,?,?,?)`. -/
def insertBook (db : GaryDB) (isbn13 : List Nat) (ts : Int)
    (json : String) (cover : Option (List Nat)) : GaryDB :=
  { db with books := db.books ++ [⟨isbn13, ts, json, cover⟩] }

/-- The outcome of a run of `isbndb_query`: the boolean result, the
database state on return, the total seconds passed to `time.sleep`,
and the number of metadata and image fetch attempts made against the
network. -/
structure FetchOutcome where
  result : Bool
  db : GaryDB
  sleepTotal : ℚ
  jsonAttempts : Nat
  imgAttempts : Nat
  deriving DecidableEq, Repr

/-- The clamping of delay parameters in `isbndb_query`: values above 15
seconds become 15. -/
def clampD (d : ℚ) : ℚ := if d > 15 then 15 else d

/-- Body of `isbndb_query` after parameter validation and clamping:
double-check the cache (returning success untouched on a hit), run the
metadata retry loop, optionally the image retry loop, insert the record
on full success, and sleep `fdelay` after every path that contacted the
network.  `jO`/`iO` give the network's answer to each attempt and `ts`
is the current Unix timestamp. -/
def isbndb_query_run (db : GaryDB) (isbn13 : List Nat)
    (jn : Nat) (jdelay : ℚ) (inn : Nat) (idelay : ℚ) (fdelay : ℚ)
    (jO : Nat → Option JMeta) (iO : Nat → Option (List Nat))
    (ts : Int) : Except GaryErr FetchOutcome :=
  if is_isbn13 isbn13 = false then .error .LogicError
  else if isbn_cached db isbn13 then .ok ⟨true, db, 0, 0, 0⟩
  else
    match retryLoop jO jdelay jn with
    | (none, js, ja) => .ok ⟨false, db, js + fdelay, ja, 0⟩
    | (some jinfo, js, ja) =>
      match jinfo.image with
      | none =>
        .ok ⟨true, insertBook db isbn13 ts jinfo.raw none, js + fdelay, ja, 0⟩
      | some _ =>
        match retryLoop iO idelay inn with
        | (none, isl, ia) => .ok ⟨false, db, js + isl + fdelay, ja, ia⟩
        | (some img, isl, ia) =>
          .ok ⟨true, insertBook db isbn13 ts jinfo.raw (some img),
               js + isl + fdelay, ja, ia⟩

/-- Function `isbndb_query` from gary.py: validate that the retry counts lie in
1..8 and the delays are nonnegative (`LogicError` otherwise — the
source also rejects non-finite floats, which rationals cannot
represent), clamp each delay to at most 15 seconds, then run the fetch
protocol.  The API key is irrelevant to the modelled state and is
folded into the oracle. -/
def isbndb_query (db : GaryDB) (isbn13 : List Nat)
    (jretry : Int) (jdelay : ℚ) (iretry : Int) (idelay : ℚ) (fdelay : ℚ)
    (jO : Nat → Option JMeta) (iO : Nat → Option (List Nat))
    (ts : Int) : Except GaryErr FetchOutcome :=
  if jretry < 1 ∨ 8 < jretry ∨ iretry < 1 ∨ 8 < iretry then .error .LogicError
  else if jdelay < 0 ∨ idelay < 0 ∨ fdelay < 0 then .error .LogicError
  else
    isbndb_query_run db isbn13 jretry.toNat (clampD jdelay)
      iretry.toNat (clampD idelay) (clampD fdelay) jO iO ts

/-- Externally visible events of one `query`/`info`/`pic` call: opening
the SQLite connection, opening and locking the ISBNdb lockfile, one
metadata fetch attempt, one image fetch attempt. -/
inductive Ev where
  | openDB
  | openLock
  | jsonFetch
  | imgFetch
  deriving DecidableEq, Repr

/-- Function `query` from gary.py: validate the timeout, the database file and
the ISBN, open the database, apply the remap, answer `true` on a cache
hit, answer `false` when `isbndb_param` yields nothing (cache-only
mode), and otherwise lock the lockfile and run `isbndb_query` with its
default retry/delay parameters.  Alongside the result it returns the
trace of external events, in order. -/
def query (fs : FileSys) (dbpath : String) (db : GaryDB)
    (isbn13 : List Nat) (db_timeout : ℚ)
    (jO : Nat → Option JMeta) (iO : Nat → Option (List Nat))
    (ts : Int) : Except GaryErr (Bool × GaryDB) × List Ev :=
  if db_timeout < 0 then (.error .LogicError, [])
  else if fs.isfile dbpath = false then (.error .NoDatabaseFileError, [])
  else if is_isbn13 isbn13 = false then (.error .InvalidISBNError, [])
  else
    match apply_remap db isbn13 with
    | .error e => (.error e, [.openDB])
    | .ok isbn2 =>
      if isbn_cached db isbn2 then (.ok (true, db), [.openDB])
      else
        match isbndb_param db fs with
        | none => (.ok (false, db), [.openDB])
        | some kp =>
          if fs.openok kp.2 = false then (.error .OpenLockfileError, [.openDB])
          else
            match isbndb_query db isbn2 3 2 3 1 2 jO iO ts with
            | .error e => (.error e, [.openDB, .openLock])
            | .ok o =>
              (.ok (o.result, o.db),
               [.openDB, .openLock] ++ List.replicate o.jsonAttempts .jsonFetch
                 ++ List.replicate o.imgAttempts .imgFetch)

/-- Function `info` from gary.py: same validation prologue as `query`, then the
remap followed by a read of the `json` column; never fetches. -/
def info (fs : FileSys) (dbpath : String) (db : GaryDB)
    (isbn13 : List Nat) (db_timeout : ℚ) :
    Except GaryErr (Option String) × List Ev :=
  if db_timeout < 0 then (.error .LogicError, [])
  else if fs.isfile dbpath = false then (.error .NoDatabaseFileError, [])
  else if is_isbn13 isbn13 = false then (.error .InvalidISBNError, [])
  else
    match apply_remap db isbn13 with
    | .error e => (.error e, [.openDB])
    | .ok isbn2 =>
      (.ok ((db.books.find? (fun b => b.isbn13 == isbn2)).map
        (fun b => b.json)), [.openDB])

/-- Function `pic` from gary.py: same validation prologue as `query`, then the
remap followed by a read of the `cover` column (`None` both when the
row is missing and when its cover is NULL); never fetches. -/
def pic (fs : FileSys) (dbpath : String) (db : GaryDB)
    (isbn13 : List Nat) (db_timeout : ℚ) :
    Except GaryErr (Option (List Nat)) × List Ev :=
  if db_timeout < 0 then (.error .LogicError, [])
  else if fs.isfile dbpath = false then (.error .NoDatabaseFileError, [])
  else if is_isbn13 isbn13 = false then (.error .InvalidISBNError, [])
  else
    match apply_remap db isbn13 with
    | .error e => (.error e, [.openDB])
    | .ok isbn2 =>
      (.ok ((db.books.find? (fun b => b.isbn13 == isbn2)).bind
        (fun b => b.cover)), [.openDB])

/-- Whitespace as stripped by `str.strip()` on the ASCII range (the
sync inputs of interest contain no extended whitespace). -/
def isSpaceN (c : Nat) : Bool := c = 32 || c = 9 || c = 10 || c = 13 || c = 11 || c = 12

/-- Python `line.strip()`: drop leading and trailing whitespace. -/
def pyStrip (s : List Nat) : List Nat :=
  ((s.dropWhile isSpaceN).reverse.dropWhile isSpaceN).reverse

/-- The `LONG_RETRY_COUNT` constant of gary.py. -/
def LONG_RETRY_COUNT : Nat := 20

/-- The per-ISBN retry loop of `main_sync`: call `query` (modelled by
the boolean oracle `o`, indexed by ISBN and attempt number) up to `rem`
more times starting at attempt `i`, stopping at the first success.
Returns whether an attempt succeeded and how many calls were made. -/
def longRetryGo (o : List Nat → Nat → Bool) (isbn : List Nat) :
    Nat → Nat → Bool × Nat
  | _, 0 => (false, 0)
  | i, rem + 1 =>
    if o isbn i then (true, 1)
    else
      let (s, k) := longRetryGo o isbn (i + 1) rem
      (s, k + 1)

/-- Function `main_sync` from gary.py over a list of input lines: strip each
line, skip blank lines, canonicalize (raising `BadSyncListError` on
failure), then drive `query` up to `LONG_RETRY_COUNT` times (raising
`SyncError` when every attempt fails).  Returns the outcome and the
trace of ISBNs passed to `query`, one entry per call. -/
def main_sync : List (List Nat) → (List Nat → Nat → Bool) →
    Except GaryErr Unit × List (List Nat)
  | [], _ => (.ok (), [])
  | line :: rest, o =>
    let l := pyStrip line
    if l.length < 1 then main_sync rest o
    else
      match norm_isbn l with
      | none => (.error .BadSyncListError, [])
      | some isbn =>
        let (s, k) := longRetryGo o isbn 0 LONG_RETRY_COUNT
        if s then
          let (r, tr) := main_sync rest o
          (r, List.replicate k isbn ++ tr)
        else (.error .SyncError, List.replicate k isbn)

/-!
## Helper lemmas
-/

/-- The digit test unfolded to its arithmetic meaning. -/
theorem isDigitN_iff (c : Nat) : isDigitN c = true ↔ 48 ≤ c ∧ c ≤ 57 := by
  simp [isDigitN]

/-- The ISBN-13 weighted sum splits over list concatenation, the right
part starting at the shifted index. -/
theorem wsum13_append (xs ys : List Nat) :
    ∀ i, wsum13 (xs ++ ys) i = wsum13 xs i + wsum13 ys (i + xs.length) := by
  induction xs with
  | nil => intro i; simp [wsum13]
  | cons c r ih =>
    intro i
    rw [List.cons_append, wsum13, wsum13, ih (i + 1), List.length_cons]
    have h : i + 1 + r.length = i + (r.length + 1) := by omega
    rw [h]
    ring

/-- Function `compute_isbn_check` succeeds only on all-digit strings. -/
theorem compute_isbn_check_digits (s : List Nat) (c : Nat)
    (h : compute_isbn_check s = some c) : s.all isDigitN = true := by
  by_contra hb
  rw [compute_isbn_check] at h
  rw [Bool.not_eq_true] at hb
  rw [hb] at h
  simp at h

/-- On 12 digits, `compute_isbn_check` returns exactly the digit that
completes the weighted sum to a multiple of 10. -/
theorem compute12_eq (s : List Nat) (hd : s.all isDigitN = true)
    (hl : s.length = 12) :
    compute_isbn_check s =
      some (48 + (if wsum13 s 0 % 10 > 0 then 10 - wsum13 s 0 % 10 else 0)) := by
  simp only [compute_isbn_check, hd, hl]
  rw [if_neg (by simp), if_neg (by omega), if_pos trivial,
    if_pos (show (if wsum13 s 0 % 10 > 0 then 10 - wsum13 s 0 % 10 else 0) < 10 by
      split <;> omega)]

/-- Properties of the ISBN-13 check digit computed on 12 digits: it is
a decimal digit and completes the weighted sum to a multiple of 10. -/
theorem compute12_check (s : List Nat) (c : Nat) (hl : s.length = 12)
    (h : compute_isbn_check s = some c) :
    48 ≤ c ∧ c ≤ 57 ∧ (wsum13 s 0 + (c - 48)) % 10 = 0 := by
  have hd := compute_isbn_check_digits s c h
  rw [compute12_eq s hd hl] at h
  have h10 : wsum13 s 0 % 10 < 10 := Nat.mod_lt _ (by norm_num)
  have hc := Option.some.inj h
  split at hc <;> omega

/-- The check digit on 12 digits is unique: any decimal digit that
completes the weighted sum is the one `compute_isbn_check` returns. -/
theorem compute12_unique (s : List Nat) (c : Nat) (hd : s.all isDigitN = true)
    (hl : s.length = 12) (hc1 : 48 ≤ c) (hc2 : c ≤ 57)
    (hsum : (wsum13 s 0 + (c - 48)) % 10 = 0) :
    compute_isbn_check s = some c := by
  rw [compute12_eq s hd hl]
  have h10 : wsum13 s 0 % 10 < 10 := Nat.mod_lt _ (by norm_num)
  congr 1
  split <;> omega

/-- On 9 digits, the value `compute_isbn_check` returns is a decimal
digit or the letter X. -/
theorem compute9_out (s : List Nat) (c : Nat) (hl : s.length = 9)
    (h : compute_isbn_check s = some c) : (48 ≤ c ∧ c ≤ 57) ∨ c = 88 := by
  have hd := compute_isbn_check_digits s c h
  simp only [compute_isbn_check, hd, hl] at h
  rw [if_neg (by simp), if_pos trivial] at h
  have h11 : wsum10 s 0 % 11 < 11 := Nat.mod_lt _ (by norm_num)
  split at h
  · split at h
    · have := Option.some.inj h
      left
      omega
    · split at h
      · exact Or.inr (Option.some.inj h).symm
      · exact absurd h (by simp)
  · have := Option.some.inj h
    left
    omega

/-- Definition `is_isbn13` unfolded to its three defining conditions. -/
theorem is_isbn13_iff (s : List Nat) :
    is_isbn13 s = true ↔
      s.length = 13 ∧ (∀ c ∈ s, isDigitN c = true) ∧ wsum13 s 0 % 10 = 0 := by
  simp [is_isbn13, List.all_eq_true, and_assoc]

/-- Appending a correct check digit to 12 digits yields a string that
passes `is_isbn13`. -/
theorem is_isbn13_append12 (md : List Nat) (c : Nat)
    (hl : md.length = 12) (hd : md.all isDigitN = true)
    (hc1 : 48 ≤ c) (hc2 : c ≤ 57)
    (hsum : (wsum13 md 0 + (c - 48)) % 10 = 0) :
    is_isbn13 (md ++ [c]) = true := by
  rw [is_isbn13_iff]
  refine ⟨by simp [hl], ?_, ?_⟩
  · intro x hx
    rcases List.mem_append.mp hx with hx | hx
    · exact List.all_eq_true.mp hd x hx
    · rw [List.mem_singleton.mp hx, isDigitN_iff]; exact ⟨hc1, hc2⟩
  · rw [wsum13_append, hl]
    simpa [wsum13] using hsum

/-- A decimal digit passes through one normalization step unchanged. -/
theorem normChar_digit (c : Nat) (h : isDigitN c = true) :
    normChar c = some c := by
  rw [isDigitN_iff] at h
  rw [normChar]
  rw [if_neg (by omega), if_neg (by omega), if_pos (by omega)]

/-- A string whose characters all survive one normalization step
unchanged is fixed by `norm_isbn_str`. -/
theorem norm_isbn_str_fix (s : List Nat)
    (h : ∀ c ∈ s, normChar c = some c) : norm_isbn_str s = s := by
  induction s with
  | nil => rfl
  | cons c r ih =>
    rw [norm_isbn_str, List.filterMap_cons, h c (by simp)]
    rw [norm_isbn_str] at ih
    rw [ih (fun x hx => h x (by simp [hx]))]

/-- Every string `norm_isbn` accepts is a valid normalized ISBN-13. -/
theorem norm_isbn_valid (s0 t : List Nat) (h : norm_isbn s0 = some t) :
    is_isbn13 t = true := by
  rw [norm_isbn] at h
  by_cases h10 : (norm_isbn_str s0).length = 10
  · rw [if_pos h10] at h
    rcases hc : compute_isbn_check ((norm_isbn_str s0).take 9) with _ | cds <;>
      rw [hc] at h
    · simp at h
    · rcases hdr : (norm_isbn_str s0).drop 9 with _ | ⟨cd, rest⟩ <;>
        rw [hdr] at h
      · simp at h
      · rcases rest with _ | _
        · simp only at h
          by_cases he : cds = cd
          · rw [if_pos he] at h
            rcases hc2 : compute_isbn_check ([57, 55, 56] ++ (norm_isbn_str s0).take 9)
                with _ | cd2 <;> rw [hc2] at h
            · simp at h
            · have ht := Option.some.inj h
              have hdig : ((norm_isbn_str s0).take 9).all isDigitN = true :=
                compute_isbn_check_digits _ _ hc
              have hlen9 : ((norm_isbn_str s0).take 9).length = 9 := by
                rw [List.length_take, h10]
                simp
              have hdig2 : ([57, 55, 56] ++ (norm_isbn_str s0).take 9).all isDigitN = true := by
                rw [List.all_append, hdig]; rfl
              have hlen12 : ([57, 55, 56] ++ (norm_isbn_str s0).take 9).length = 12 := by
                simp [hlen9]
              obtain ⟨hb1, hb2, hbs⟩ := compute12_check _ _ hlen12 hc2
              rw [← ht]
              exact is_isbn13_append12 _ _ hlen12 hdig2 hb1 hb2 hbs
          · rw [if_neg he] at h; simp at h
        · simp at h
  · rw [if_neg h10] at h
    by_cases h13 : (norm_isbn_str s0).length = 13
    · rw [if_pos h13] at h
      rcases hc : compute_isbn_check ((norm_isbn_str s0).take 12) with _ | cds <;>
        rw [hc] at h
      · simp at h
      · rcases hdr : (norm_isbn_str s0).drop 12 with _ | ⟨cd, rest⟩ <;>
          rw [hdr] at h
        · simp at h
        · rcases rest with _ | _
          · simp only at h
            by_cases he : cds = cd
            · rw [if_pos he] at h
              have ht := Option.some.inj h
              have hdig : ((norm_isbn_str s0).take 12).all isDigitN = true :=
                compute_isbn_check_digits _ _ hc
              have hlen12 : ((norm_isbn_str s0).take 12).length = 12 := by
                rw [List.length_take, h13]
                simp
              obtain ⟨hb1, hb2, hbs⟩ := compute12_check _ _ hlen12 hc
              have hsplit : (norm_isbn_str s0).take 12 ++ [cd] = norm_isbn_str s0 := by
                conv_rhs => rw [← List.take_append_drop 12 (norm_isbn_str s0)]
                rw [hdr]
              rw [← ht, ← hsplit]
              exact is_isbn13_append12 _ _ hlen12 hdig
                (he ▸ hb1) (he ▸ hb2) (he ▸ hbs)
            · rw [if_neg he] at h; simp at h
          · simp at h
    · rw [if_neg h13] at h; simp at h

/-- A valid normalized ISBN-13 is accepted by `norm_isbn` and returned
unchanged. -/
theorem norm_isbn_self (t : List Nat) (h : is_isbn13 t = true) :
    norm_isbn t = some t := by
  obtain ⟨hl, hdig, hsum⟩ := (is_isbn13_iff t).mp h
  have hfix : norm_isbn_str t = t :=
    norm_isbn_str_fix t (fun c hc => normChar_digit c (hdig c hc))
  have hdl : (t.drop 12).length = 1 := by rw [List.length_drop, hl]
  obtain ⟨c, hc⟩ := List.length_eq_one.mp hdl
  have hsplit : t.take 12 ++ [c] = t := by
    conv_rhs => rw [← List.take_append_drop 12 t]
    rw [hc]
  have hlen12 : (t.take 12).length = 12 := by
    rw [List.length_take, hl]
    simp
  have hcd : 48 ≤ c ∧ c ≤ 57 := by
    rw [← isDigitN_iff]
    exact hdig c (List.drop_subset 12 t (hc ▸ List.mem_singleton_self c))
  have hw : wsum13 (t.take 12) 0 + (c - 48) = wsum13 t 0 := by
    conv_rhs => rw [← hsplit]
    rw [wsum13_append, hlen12]
    simp [wsum13]
  have hmd : (t.take 12).all isDigitN = true :=
    List.all_eq_true.mpr (fun x hx => hdig x (List.take_subset 12 t hx))
  have hcomp : compute_isbn_check (t.take 12) = some c :=
    compute12_unique _ _ hmd hlen12 hcd.1 hcd.2 (by rw [hw]; exact hsum)
  rw [norm_isbn, hfix, if_neg (by omega), if_pos hl, hcomp, hc]
  simp

/-- When every attempt fails and the loop does not start at the first
attempt, each of the `rem` iterations sleeps the full delay. -/
theorem retryGo_none {α : Type} (oracle : Nat → Option α) (delay : ℚ)
    (h : ∀ k, oracle k = none) :
    ∀ rem i, 0 < i → retryGo oracle delay i rem = (none, rem * delay, rem) := by
  intro rem
  induction rem with
  | zero => intro i hi; simp [retryGo]
  | succ m ih =>
    intro i hi
    simp only [retryGo, h i, if_pos hi, ih (i + 1) (Nat.succ_pos i)]
    refine Prod.ext rfl (Prod.ext ?_ rfl)
    push_cast
    ring

/-- When every attempt fails, a full retry loop of `n` attempts sleeps
`(n-1)` times the delay (no sleep before the first attempt) and makes
all `n` attempts. -/
theorem retryLoop_none {α : Type} (oracle : Nat → Option α) (delay : ℚ)
    (h : ∀ k, oracle k = none) (n : Nat) (hn : 0 < n) :
    retryLoop oracle delay n = (none, (n - 1 : ℕ) * delay, n) := by
  obtain ⟨m, rfl⟩ : ∃ m, n = m + 1 := ⟨n - 1, by omega⟩
  rw [retryLoop]
  simp only [retryGo, h 0, if_neg (lt_irrefl 0), retryGo_none oracle delay h m 1 one_pos]
  refine Prod.ext rfl (Prod.ext ?_ rfl)
  simp

/-- Clamping is taking the minimum with 15. -/
theorem clampD_eq_min (d : ℚ) : clampD d = min d 15 := by
  rw [clampD]
  rcases le_or_lt d 15 with h | h
  · rw [if_neg (not_lt.mpr h), min_eq_left h]
  · rw [if_pos h, min_eq_right h.le]

/-- The source's indexed weighted sum agrees with a sum over the
enumerated positions of the list. -/
theorem wsum13_enumFrom (s : List Nat) :
    ∀ i, wsum13 s i =
      ((List.enumFrom i s).map
        (fun p => (if p.1 % 2 = 1 then 3 else 1) * (p.2 - 48))).sum := by
  induction s with
  | nil => intro i; simp [wsum13, List.enumFrom]
  | cons c r ih =>
    intro i
    rw [wsum13, List.enumFrom, List.map_cons, List.sum_cons, ih (i + 1)]

/-- The per-ISBN sync retry loop succeeds exactly when some attempt
within the remaining budget succeeds. -/
theorem longRetryGo_true_iff (o : List Nat → Nat → Bool) (isbn : List Nat) :
    ∀ rem i, (longRetryGo o isbn i rem).1 = true ↔
      ∃ j, j < rem ∧ o isbn (i + j) = true := by
  intro rem
  induction rem with
  | zero => intro i; simp [longRetryGo]
  | succ m ih =>
    intro i
    rw [longRetryGo]
    by_cases hx : o isbn i
    · rw [if_pos hx]
      simp only [true_iff]
      exact ⟨0, Nat.succ_pos m, by simpa using hx⟩
    · rw [if_neg hx]
      rcases hres : longRetryGo o isbn (i + 1) m with ⟨s, k⟩
      have hih := ih (i + 1)
      rw [hres] at hih
      simp only at hih ⊢
      rw [hih]
      constructor
      · rintro ⟨j, hj, hoj⟩
        exact ⟨j + 1, by omega, by rw [show i + (j + 1) = i + 1 + j by omega]; exact hoj⟩
      · rintro ⟨j, hj, hoj⟩
        rcases j with _ | j
        · exact absurd (by simpa using hoj) hx
        · exact ⟨j, by omega, by rw [show i + 1 + j = i + (j + 1) by omega]; exact hoj⟩

/-!
## Concrete fixtures
-/

/-- A valid canonical ISBN-13 (the canonical form of ISBN-10
0306406152). -/
def isbnA : List Nat := strCodes "9780306406157"

/-- A second valid canonical ISBN-13. -/
def isbnB : List Nat := strCodes "9780000000002"

/-- A third valid canonical ISBN-13. -/
def isbnC : List Nat := strCodes "9780000000019"

/-- A Gary database with empty tables and no service configuration. -/
def dbEmpty : GaryDB := ⟨[], [], none, none⟩

/-- A Gary database whose cache already holds `isbnA`, with a service
configuration present. -/
def dbCachedA : GaryDB :=
  ⟨[⟨isbnA, 0, "\x7b\x7d", none⟩], [], some "key", some "/lock"⟩

/-- A Gary database with a two-link remap chain `isbnA → isbnB → isbnC`
and nothing cached. -/
def dbChain : GaryDB := ⟨[], [(isbnA, isbnB), (isbnB, isbnC)], none, none⟩

/-- A metadata oracle on which every fetch attempt fails. -/
def jOracleNone : Nat → Option JMeta := fun _ => none

/-- An image oracle on which every fetch attempt fails. -/
def iOracleNone : Nat → Option (List Nat) := fun _ => none

/-- A filesystem on which every path is an existing absolute regular
file that can be opened. -/
def fsAll : FileSys := ⟨fun _ => true, fun _ => true, fun _ => false, fun _ => true⟩

/-- The two input lines of the sync scenario of the specification. -/
def syncInput : List (List Nat) := [strCodes "9780306406157", strCodes "garbage"]

/-!
## Claim theorems
-/

/-- Claim C5: remap resolution is single-hop.  The resolver's outcome
depends only on the lookup keyed by the given ISBN (so `dest13` is
never chased recursively); a missing entry returns the input unchanged;
a found entry returns its `dest13` after re-validation, raising the
fatal `DatabaseIntegrityError` when `dest13` is not a well-formed
ISBN-13. -/
theorem apply_remap_single_hop (db db2 : GaryDB) (i : List Nat) :
    (remapLookup db i = remapLookup db2 i →
      apply_remap db i = apply_remap db2 i)
    ∧ (is_isbn13 i = true → remapLookup db i = none →
      apply_remap db i = .ok i)
    ∧ (∀ d, is_isbn13 i = true → remapLookup db i = some d →
      is_isbn13 d = true → apply_remap db i = .ok d)
    ∧ (∀ d, is_isbn13 i = true → remapLookup db i = some d →
      is_isbn13 d = false →
      apply_remap db i = .error .DatabaseIntegrityError) := by
  refine ⟨?_, ?_, ?_, ?_⟩
  · intro h
    rw [apply_remap, apply_remap, h]
  · intro hv h
    rw [apply_remap, if_neg (by rw [hv]; simp), h]
  · intro d hv h hd
    rw [apply_remap, if_neg (by rw [hv]; simp), h]
    simp only [hd, if_true]
  · intro d hv h hd
    rw [apply_remap, if_neg (by rw [hv]; simp), h]
    simp [hd]

/-- Witness for C5 on the chain `isbnA → isbnB → isbnC`: resolving
`isbnA` stops at `isbnB` even though `isbnB` has its own entry. -/
theorem apply_remap_single_hop_witness :
    apply_remap dbChain isbnA = .ok isbnB ∧
    remapLookup dbChain isbnB = some isbnC :=
  ⟨(apply_remap_single_hop dbChain dbChain isbnA).2.2.1 isbnB (by decide)
    (by decide) (by decide), by decide⟩

/-- Claim C8: canonicalization is idempotent — whenever `norm_isbn`
accepts a string, applying it to the result returns the result
unchanged. -/
theorem norm_isbn_idempotent (s t : List Nat) (h : norm_isbn s = some t) :
    norm_isbn t = some t :=
  norm_isbn_self t (norm_isbn_valid s t h)

/-- Witness for C8 on the ISBN-10 spelling of `isbnA`. -/
theorem norm_isbn_idempotent_witness :
    norm_isbn (strCodes "9780306406157") = some (strCodes "9780306406157") :=
  norm_isbn_idempotent (strCodes "0306406152") _ (by decide)

/-- The weighted sum of the specification: digit at zero-based position
`i` (as enumerated by `List.enum`) carries weight 3 when `i` is odd and
1 when `i` is even. -/
def specWeightedSum (s : List Nat) : Nat :=
  (s.enum.map (fun p => (if p.1 % 2 = 1 then 3 else 1) * (p.2 - 48))).sum

/-- Claim C9: the ISBN-13 validator accepts exactly the strings of 13
ASCII decimal digits whose alternating {1,3}-weighted digit sum is
divisible by 10. -/
theorem is_isbn13_spec (s : List Nat) :
    is_isbn13 s = true ↔
      s.length = 13 ∧ (∀ c ∈ s, 48 ≤ c ∧ c ≤ 57) ∧
        specWeightedSum s % 10 = 0 := by
  have hw : wsum13 s 0 = specWeightedSum s := by
    rw [specWeightedSum, List.enum]
    exact wsum13_enumFrom s 0
  rw [is_isbn13_iff, hw]
  simp only [isDigitN_iff]

/-- Witness for C9 at `isbnA`. -/
theorem is_isbn13_spec_witness :
    isbnA.length = 13 ∧ (∀ c ∈ isbnA, 48 ≤ c ∧ c ≤ 57) ∧
      specWeightedSum isbnA % 10 = 0 :=
  (is_isbn13_spec isbnA).mp (by decide)

/-- Claim C7: every valid ISBN-10 (nine digits and the matching check
digit) canonicalizes to the string `"978"` followed by its first nine
digits and the recomputed ISBN-13 check digit, and that string passes
ISBN-13 validation; concretely, the check digit of `"030640615"` is
`'2'` (code 50) and `"0306406152"` canonicalizes to
`"9780306406157"`. -/
theorem norm_isbn_isbn10_conversion :
    (∀ s c, s.length = 10 → (s.take 9).all isDigitN = true →
      compute_isbn_check (s.take 9) = some c → s.drop 9 = [c] →
      ∃ cd2, compute_isbn_check ([57, 55, 56] ++ s.take 9) = some cd2 ∧
        norm_isbn s = some (([57, 55, 56] ++ s.take 9) ++ [cd2]) ∧
        is_isbn13 (([57, 55, 56] ++ s.take 9) ++ [cd2]) = true)
    ∧ compute_isbn_check (strCodes "030640615") = some 50
    ∧ norm_isbn (strCodes "0306406152") = some (strCodes "9780306406157") := by
  refine ⟨?_, by decide, by decide⟩
  intro s c hl hd hc hdr
  have hsplit : s.take 9 ++ [c] = s := by
    conv_rhs => rw [← List.take_append_drop 9 s]
    rw [hdr]
  have hlen9 : (s.take 9).length = 9 := by
    rw [List.length_take, hl]
    simp
  have hcout := compute9_out (s.take 9) c hlen9 hc
  have hfix : norm_isbn_str s = s := by
    apply norm_isbn_str_fix
    intro x hx
    rw [← hsplit] at hx
    rcases List.mem_append.mp hx with hx | hx
    · exact normChar_digit x (List.all_eq_true.mp hd x hx)
    · rw [List.mem_singleton.mp hx]
      rcases hcout with h | h
      · exact normChar_digit c ((isDigitN_iff c).mpr h)
      · rw [h]
        rfl
  have hd2 : ([57, 55, 56] ++ s.take 9).all isDigitN = true := by
    rw [List.all_append, hd]
    rfl
  have hlen12 : ([57, 55, 56] ++ s.take 9).length = 12 := by simp [hlen9]
  obtain ⟨cd2, hcd2⟩ :
      ∃ cd2, compute_isbn_check ([57, 55, 56] ++ s.take 9) = some cd2 := by
    rw [compute12_eq _ hd2 hlen12]
    exact ⟨_, rfl⟩
  refine ⟨cd2, hcd2, ?_, ?_⟩
  · rw [norm_isbn, hfix, if_pos hl, hc, hdr]
    simp only [hcd2]
    rw [if_pos trivial]
  · obtain ⟨hb1, hb2, hbs⟩ := compute12_check _ _ hlen12 hcd2
    exact is_isbn13_append12 _ _ hlen12 hd2 hb1 hb2 hbs

/-- Witness for C7 at the ISBN-10 `"0306406152"`. -/
theorem norm_isbn_isbn10_conversion_witness :
    ∃ cd2, compute_isbn_check ([57, 55, 56] ++ (strCodes "0306406152").take 9) =
        some cd2 ∧
      norm_isbn (strCodes "0306406152") =
        some (([57, 55, 56] ++ (strCodes "0306406152").take 9) ++ [cd2]) ∧
      is_isbn13 (([57, 55, 56] ++ (strCodes "0306406152").take 9) ++ [cd2]) = true :=
  norm_isbn_isbn10_conversion.1 (strCodes "0306406152") 50 (by decide)
    (by decide) (by decide) (by decide)

/-- Claim C1 (amended): when the double-check performed under the
exclusive lock finds the record already cached, `isbndb_query` returns
success immediately — the database is untouched, no fetch attempt is
made, and NO courtesy delay is applied (total sleep is 0, not
`fdelay`). -/
theorem isbndb_query_cached_no_courtesy_delay
    (db : GaryDB) (isbn : List Nat) (jretry : Int) (jdelay : ℚ)
    (iretry : Int) (idelay fdelay : ℚ)
    (jO : Nat → Option JMeta) (iO : Nat → Option (List Nat)) (ts : Int)
    (hj1 : 1 ≤ jretry) (hj8 : jretry ≤ 8) (hi1 : 1 ≤ iretry) (hi8 : iretry ≤ 8)
    (hjd : 0 ≤ jdelay) (hid : 0 ≤ idelay) (hfd : 0 ≤ fdelay)
    (hisbn : is_isbn13 isbn = true) (hcache : isbn_cached db isbn = true) :
    isbndb_query db isbn jretry jdelay iretry idelay fdelay jO iO ts =
      .ok ⟨true, db, 0, 0, 0⟩ := by
  rw [isbndb_query, if_neg (by omega),
    if_neg (by push_neg; exact ⟨hjd, hid, hfd⟩)]
  rw [isbndb_query_run, if_neg (by rw [hisbn]; simp), if_pos hcache]

/-- Witness for C1's amended theorem at a cached ISBN with
`fdelay = 5`. -/
theorem isbndb_query_cached_no_courtesy_delay_witness :
    isbndb_query dbCachedA isbnA 3 2 3 1 5 jOracleNone iOracleNone 0 =
      .ok ⟨true, dbCachedA, 0, 0, 0⟩ :=
  isbndb_query_cached_no_courtesy_delay dbCachedA isbnA 3 2 3 1 5
    jOracleNone iOracleNone 0 (by norm_num) (by norm_num) (by norm_num)
    (by norm_num) (by norm_num) (by norm_num) (by norm_num)
    (by decide) (by decide)

/-- Counterexample to C1 as stated: on a double-check hit with
`fdelay = 2`, the call returns success having slept 0 seconds — the
courtesy delay is NOT applied before returning. -/
theorem isbndb_query_cached_skips_fdelay_cex :
    isbndb_query dbCachedA isbnA 3 2 3 1 2 jOracleNone iOracleNone 0 =
      .ok ⟨true, dbCachedA, 0, 0, 0⟩ ∧ (0 : ℚ) ≠ 2 := by
  refine ⟨rfl, by norm_num⟩

/-- Claim C2: on an uncached ISBN with every metadata attempt
returning absent, `isbndb_query` reports failure, leaves the database
unchanged (no record written), makes all `jretry` attempts, and sleeps
exactly `(jretry - 1) * jdelay + fdelay` seconds in total. -/
theorem isbndb_query_all_absent_failure
    (db : GaryDB) (isbn : List Nat) (jretry : Int) (jdelay : ℚ)
    (iretry : Int) (idelay fdelay : ℚ)
    (jO : Nat → Option JMeta) (iO : Nat → Option (List Nat)) (ts : Int)
    (hj1 : 1 ≤ jretry) (hj8 : jretry ≤ 8) (hi1 : 1 ≤ iretry) (hi8 : iretry ≤ 8)
    (hjd : 0 ≤ jdelay) (hjd15 : jdelay ≤ 15)
    (hid : 0 ≤ idelay) (hfd : 0 ≤ fdelay) (hfd15 : fdelay ≤ 15)
    (hisbn : is_isbn13 isbn = true) (hcache : isbn_cached db isbn = false)
    (habs : ∀ k, jO k = none) :
    isbndb_query db isbn jretry jdelay iretry idelay fdelay jO iO ts =
      .ok ⟨false, db, (jretry.toNat - 1 : ℕ) * jdelay + fdelay,
        jretry.toNat, 0⟩ := by
  rw [isbndb_query, if_neg (by omega),
    if_neg (by push_neg; exact ⟨hjd, hid, hfd⟩)]
  have hcj : clampD jdelay = jdelay := by
    rw [clampD_eq_min, min_eq_left hjd15]
  have hcf : clampD fdelay = fdelay := by
    rw [clampD_eq_min, min_eq_left hfd15]
  rw [hcj, hcf, isbndb_query_run, if_neg (by rw [hisbn]; simp),
    if_neg (by rw [hcache]; simp),
    retryLoop_none jO jdelay habs jretry.toNat (by omega)]

/-- Witness for C2 with the default parameters: 3 failed attempts,
total sleep `2*2 + 2 = 6` seconds, no record written. -/
theorem isbndb_query_all_absent_failure_witness :
    isbndb_query dbEmpty isbnA 3 2 3 1 2 jOracleNone iOracleNone 0 =
      .ok ⟨false, dbEmpty, 6, 3, 0⟩ := by
  rw [isbndb_query_all_absent_failure dbEmpty isbnA 3 2 3 1 2
    jOracleNone iOracleNone 0 (by norm_num) (by norm_num) (by norm_num)
    (by norm_num) (by norm_num) (by norm_num) (by norm_num) (by norm_num)
    (by norm_num) (by decide) (by decide) (fun _ => rfl)]
  rw [show Int.toNat 3 = 3 from rfl]
  norm_num

/-- Claim C6 (amended): `isbndb_query` fails with `LogicError` when a
retry count lies outside 1..8, and also when any delay is negative
(negative delays are rejected, not clamped to 0); nonnegative delays
are clamped from above to 15 seconds, i.e. the call behaves exactly as
if each delay were `min delay 15`. -/
theorem isbndb_query_param_validation
    (db : GaryDB) (isbn : List Nat) (jretry : Int) (jdelay : ℚ)
    (iretry : Int) (idelay fdelay : ℚ)
    (jO : Nat → Option JMeta) (iO : Nat → Option (List Nat)) (ts : Int) :
    ((jretry < 1 ∨ 8 < jretry ∨ iretry < 1 ∨ 8 < iretry) →
      isbndb_query db isbn jretry jdelay iretry idelay fdelay jO iO ts =
        .error .LogicError)
    ∧ (1 ≤ jretry → jretry ≤ 8 → 1 ≤ iretry → iretry ≤ 8 →
      (jdelay < 0 ∨ idelay < 0 ∨ fdelay < 0) →
      isbndb_query db isbn jretry jdelay iretry idelay fdelay jO iO ts =
        .error .LogicError)
    ∧ (0 ≤ jdelay → 0 ≤ idelay → 0 ≤ fdelay →
      isbndb_query db isbn jretry jdelay iretry idelay fdelay jO iO ts =
        isbndb_query db isbn jretry (min jdelay 15) iretry (min idelay 15)
          (min fdelay 15) jO iO ts) := by
  refine ⟨?_, ?_, ?_⟩
  · intro h
    rw [isbndb_query, if_pos h]
  · intro h1 h2 h3 h4 h
    rw [isbndb_query, if_neg (by omega), if_pos h]
  · intro hj hi hf
    rw [isbndb_query, isbndb_query]
    by_cases hr : jretry < 1 ∨ 8 < jretry ∨ iretry < 1 ∨ 8 < iretry
    · rw [if_pos hr, if_pos hr]
    · rw [if_neg hr, if_neg hr,
        if_neg (by push_neg; exact ⟨hj, hi, hf⟩),
        if_neg (by
          push_neg
          exact ⟨le_min hj (by norm_num), le_min hi (by norm_num),
            le_min hf (by norm_num)⟩)]
      rw [clampD_eq_min, clampD_eq_min, clampD_eq_min,
        clampD_eq_min, clampD_eq_min, clampD_eq_min]
      rw [min_assoc, min_self, min_assoc, min_self, min_assoc, min_self]

/-- Witness for C6's amended theorem: a retry count of 0 fails, a
negative delay fails, and a delay of 20 behaves as 15. -/
theorem isbndb_query_param_validation_witness :
    isbndb_query dbEmpty isbnA 0 2 3 1 2 jOracleNone iOracleNone 0 =
      .error .LogicError ∧
    isbndb_query dbEmpty isbnA 3 2 3 1 (-2) jOracleNone iOracleNone 0 =
      .error .LogicError ∧
    isbndb_query dbEmpty isbnA 3 20 3 1 2 jOracleNone iOracleNone 0 =
      isbndb_query dbEmpty isbnA 3 (min 20 15) 3 (min 1 15) (min 2 15)
        jOracleNone iOracleNone 0 :=
  ⟨(isbndb_query_param_validation dbEmpty isbnA 0 2 3 1 2
      jOracleNone iOracleNone 0).1 (by norm_num),
   (isbndb_query_param_validation dbEmpty isbnA 3 2 3 1 (-2)
      jOracleNone iOracleNone 0).2.1 (by norm_num) (by norm_num)
      (by norm_num) (by norm_num) (by norm_num),
   (isbndb_query_param_validation dbEmpty isbnA 3 20 3 1 2
      jOracleNone iOracleNone 0).2.2 (by norm_num) (by norm_num)
      (by norm_num)⟩

/-- Counterexample to C6 as stated: with `fdelay = -1` (a numeric
input whose clamp into [0,15] would be 0) the call does not proceed
with the clamped delay but fails with `LogicError`; the same call with
delay 0 succeeds. -/
theorem isbndb_query_negative_delay_cex :
    isbndb_query dbCachedA isbnA 3 2 3 1 (-1) jOracleNone iOracleNone 0 =
      .error .LogicError ∧
    isbndb_query dbCachedA isbnA 3 2 3 1 0 jOracleNone iOracleNone 0 =
      .ok ⟨true, dbCachedA, 0, 0, 0⟩ := by
  refine ⟨rfl, rfl⟩

/-- Claim C3: on a valid ISBN-13 whose remap-resolved form is not
cached, when `isbndb_param` yields no usable service configuration,
`query` returns `false` with the database unchanged (nothing inserted)
and the only external event is opening the database — no lock is taken
and no fetch is attempted.  Cache-only mode is not an error. -/
theorem query_cache_only_mode
    (fs : FileSys) (dbpath : String) (db : GaryDB) (isbn isbn2 : List Nat)
    (dt : ℚ) (jO : Nat → Option JMeta) (iO : Nat → Option (List Nat))
    (ts : Int)
    (hdt : 0 ≤ dt) (hfile : fs.isfile dbpath = true)
    (hisbn : is_isbn13 isbn = true)
    (hremap : apply_remap db isbn = .ok isbn2)
    (hcache : isbn_cached db isbn2 = false)
    (hparam : isbndb_param db fs = none) :
    query fs dbpath db isbn dt jO iO ts = (.ok (false, db), [.openDB]) := by
  rw [query, if_neg (not_lt.mpr hdt), if_neg (by rw [hfile]; simp),
    if_neg (by rw [hisbn]; simp), hremap]
  simp only [hcache, hparam]
  rw [if_neg (by simp)]

/-- Witness for C3 on the empty database. -/
theorem query_cache_only_mode_witness :
    query fsAll "gary.sqlite" dbEmpty isbnA 5 jOracleNone iOracleNone 0 =
      (.ok (false, dbEmpty), [.openDB]) :=
  query_cache_only_mode fsAll "gary.sqlite" dbEmpty isbnA isbnA 5
    jOracleNone iOracleNone 0 (by norm_num) rfl (by decide) rfl
    (by decide) rfl

/-- Claim C10: on a string that fails ISBN-13 validation, the `query`,
`info` and `pic` operations (with an existing database file) all fail
with the distinct `InvalidISBNError` and an empty event trace — before
opening a database connection and before any network I/O. -/
theorem invalid_isbn_rejected_early
    (fs : FileSys) (dbpath : String) (db : GaryDB) (isbn : List Nat)
    (dt : ℚ) (jO : Nat → Option JMeta) (iO : Nat → Option (List Nat))
    (ts : Int)
    (hdt : 0 ≤ dt) (hfile : fs.isfile dbpath = true)
    (hisbn : is_isbn13 isbn = false) :
    query fs dbpath db isbn dt jO iO ts = (.error .InvalidISBNError, []) ∧
    info fs dbpath db isbn dt = (.error .InvalidISBNError, []) ∧
    pic fs dbpath db isbn dt = (.error .InvalidISBNError, []) := by
  refine ⟨?_, ?_, ?_⟩
  · rw [query, if_neg (not_lt.mpr hdt), if_neg (by rw [hfile]; simp),
      if_pos hisbn]
  · rw [info, if_neg (not_lt.mpr hdt), if_neg (by rw [hfile]; simp),
      if_pos hisbn]
  · rw [pic, if_neg (not_lt.mpr hdt), if_neg (by rw [hfile]; simp),
      if_pos hisbn]

/-- Witness for C10 at the 13-digit string with a wrong check digit
`"9780306406150"`. -/
theorem invalid_isbn_rejected_early_witness :
    query fsAll "gary.sqlite" dbCachedA (strCodes "9780306406150") 5
        jOracleNone iOracleNone 0 = (.error .InvalidISBNError, []) ∧
    info fsAll "gary.sqlite" dbCachedA (strCodes "9780306406150") 5 =
      (.error .InvalidISBNError, []) ∧
    pic fsAll "gary.sqlite" dbCachedA (strCodes "9780306406150") 5 =
      (.error .InvalidISBNError, []) :=
  invalid_isbn_rejected_early fsAll "gary.sqlite" dbCachedA
    (strCodes "9780306406150") 5 jOracleNone iOracleNone 0
    (by norm_num) rfl (by decide)

/-- Claim C4: syncing the input lines `["9780306406157", "garbage"]`
always aborts with an error, and no `query` call is ever made for
`"garbage"` (every traced call is for the first ISBN); whenever the
first line resolves within the retry ceiling, the abort is the fatal
`BadSyncListError` raised on the second line; and in general a
non-blank line failing canonicalization aborts the whole batch at that
line with `BadSyncListError` and no further query calls. -/
theorem main_sync_aborts_on_bad_line (o : List Nat → Nat → Bool) :
    ((main_sync syncInput o).1 ≠ .ok ())
    ∧ (∀ x ∈ (main_sync syncInput o).2, x = strCodes "9780306406157")
    ∧ ((∃ j, j < LONG_RETRY_COUNT ∧ o (strCodes "9780306406157") j = true) →
      (main_sync syncInput o).1 = .error .BadSyncListError)
    ∧ (∀ line rest o2, 1 ≤ (pyStrip line).length →
      norm_isbn (pyStrip line) = none →
      main_sync (line :: rest) o2 = (.error .BadSyncListError, [])) := by
  have hG : main_sync [strCodes "garbage"] o = (.error .BadSyncListError, []) := by
    rw [main_sync]
    rw [show pyStrip (strCodes "garbage") = strCodes "garbage" from by decide]
    rw [if_neg (by decide),
      show norm_isbn (strCodes "garbage") = none from by decide]
  have hmain : main_sync syncInput o =
      (let sk := longRetryGo o (strCodes "9780306406157") 0 LONG_RETRY_COUNT
       if sk.1 then
         (Except.error GaryErr.BadSyncListError,
          List.replicate sk.2 (strCodes "9780306406157") ++ [])
       else
         (Except.error GaryErr.SyncError,
          List.replicate sk.2 (strCodes "9780306406157"))) := by
    rw [show syncInput = [strCodes "9780306406157", strCodes "garbage"] from rfl]
    rw [main_sync]
    rw [show pyStrip (strCodes "9780306406157") = strCodes "9780306406157"
      from by decide]
    rw [if_neg (by decide),
      show norm_isbn (strCodes "9780306406157") =
        some (strCodes "9780306406157") from by decide]
    rcases hres : longRetryGo o (strCodes "9780306406157") 0 LONG_RETRY_COUNT
      with ⟨s, k⟩
    simp only
    by_cases hs : s
    · rw [if_pos hs, if_pos (by rw [hres]; exact hs), hG, hres]
    · rw [if_neg hs, if_neg (by rw [hres]; exact hs), hres]
  refine ⟨?_, ?_, ?_, ?_⟩
  · rw [hmain]
    simp only
    split <;> simp
  · intro x hx
    rw [hmain] at hx
    simp only at hx
    rcases hxx : (longRetryGo o (strCodes "9780306406157") 0 LONG_RETRY_COUNT).1
    · rw [hxx] at hx
      simp only [if_neg Bool.false_ne_true] at hx
      exact (List.eq_of_mem_replicate hx)
    · rw [hxx] at hx
      simp only [if_pos rfl, List.append_nil] at hx
      exact (List.eq_of_mem_replicate hx)
  · intro hex
    have hs : (longRetryGo o (strCodes "9780306406157") 0 LONG_RETRY_COUNT).1
        = true := by
      rw [longRetryGo_true_iff o (strCodes "9780306406157") LONG_RETRY_COUNT 0]
      obtain ⟨j, hj, hoj⟩ := hex
      exact ⟨j, hj, by simpa using hoj⟩
    rw [hmain]
    simp [hs]
  · intro line rest o2 hlen hnone
    rw [main_sync, if_neg (by omega), hnone]

/-- Witness for C4 at an oracle on which the first ISBN resolves at
once: the batch aborts with `BadSyncListError` after a single `query`
call for the first ISBN. -/
theorem main_sync_aborts_on_bad_line_witness :
    (main_sync syncInput (fun _ _ => true)).1 = .error .BadSyncListError ∧
    main_sync [strCodes "x"] (fun _ _ => true) =
      (.error .BadSyncListError, []) :=
  ⟨(main_sync_aborts_on_bad_line (fun _ _ => true)).2.2.1
      ⟨0, by norm_num [LONG_RETRY_COUNT], rfl⟩,
   (main_sync_aborts_on_bad_line (fun _ _ => true)).2.2.2
      (strCodes "x") [] (fun _ _ => true) (by decide) (by decide)⟩

end Gary
